import Mathlib

/-!
Verification development for the childcare-finder repository.

The Python sources `src/collect_data.py` (classes `FeatureEngineer` and
`SimpleRecommender`) and `src/app.py` (function `calculate_match_score`)
are shallowly embedded below.  Numeric fields are modelled by the
rationals; fields that may be absent (pandas `NaN` / Python `None`) are
modelled by `Option`.  The haversine distance uses real numbers since it
involves trigonometric functions.
-/

namespace ChildcareFinder

/-- A review record.  In the source a review is a dictionary and its
text is read with `r.get('text', '')`, so the text is always a string. -/
structure Review where
  text : String
deriving DecidableEq

/-- Lower-casing of a string, modelling Python `str.lower()` on the
ASCII keywords used by the source. -/
def lowerStr (s : String) : String := ⟨s.data.map Char.toLower⟩

/-- Non-overlapping substring occurrence count on character lists,
modelling Python `str.count`: scan from the left and, on a match, skip
the whole needle.  The extra fuel argument makes the recursion
structural; every recursive call drops at least one character, so fuel
equal to the haystack length is never exhausted before the haystack
is. -/
def countOccAux (needle : List Char) : Nat → List Char → Nat
  | 0, _ => 0
  | _ + 1, [] => 0
  | fuel + 1, c :: rest =>
    if needle.isEmpty then 0
    else if needle.isPrefixOf (c :: rest) then
      countOccAux needle fuel (rest.drop (needle.length - 1)) + 1
    else
      countOccAux needle fuel rest

/-- Python `haystack.count(needle)` for the non-empty keyword literals
of the source. -/
def countStr (needle haystack : String) : Nat :=
  countOccAux needle.data haystack.data.length haystack.data

/-- Python `needle in haystack` (substring test) for the non-empty
keyword literals of the source. -/
def containsStr (needle haystack : String) : Bool :=
  decide (0 < countStr needle haystack)

/-- Python `' '.join([r.get('text', '').lower() for r in reviews])`,
shared by `extract_review_features` and `estimate_price_from_reviews`. -/
def joinedLowerTexts (reviews : List Review) : String :=
  String.intercalate " " (reviews.map (fun r => lowerStr r.text))

/-- The positive sentiment keyword list of
`FeatureEngineer.extract_review_features`. -/
def positiveKeywords : List String :=
  ["excellent", "amazing", "wonderful", "great", "love", "best", "professional"]

/-- The negative sentiment keyword list of
`FeatureEngineer.extract_review_features`. -/
def negativeKeywords : List String :=
  ["poor", "bad", "terrible", "disappointed", "worst", "unprofessional"]

/-- `np.mean([len(r.get('text', '')) for r in reviews])` as a rational,
used on the non-empty branch of `extract_review_features`. -/
def avgReviewLength (reviews : List Review) : ℚ :=
  ((reviews.map (fun r => (r.text.length : ℚ))).sum) / (reviews.length : ℚ)

namespace CollectData

/-- Embedding of `FeatureEngineer.extract_review_features`
(src/collect_data.py, lines 165-219).  The Python function returns a
dictionary; we return the association list of its key/value pairs in
source order.  Note that the empty-review branch returns a dictionary
that lacks the keys `mentions_reggio` and `mentions_stem` which the
non-empty branch produces. -/
def extract_review_features (reviews : List Review) : List (String × ℚ) :=
  if reviews.isEmpty then
    [("mentions_clean", 0),
     ("mentions_safe", 0),
     ("mentions_caring", 0),
     ("mentions_educational", 0),
     ("mentions_montessori", 0),
     ("mentions_play_based", 0),
     ("mentions_affordable", 0),
     ("mentions_expensive", 0),
     ("negative_keywords_count", 0),
     ("positive_keywords_count", 0),
     ("avg_review_length", 0)]
  else
    let all_text := joinedLowerTexts reviews
    [("mentions_montessori", if containsStr "montessori" all_text then 1 else 0),
     ("mentions_reggio", if containsStr "reggio" all_text then 1 else 0),
     ("mentions_play_based",
       if containsStr "play-based" all_text || containsStr "play based" all_text
          || containsStr "child-led" all_text then 1 else 0),
     ("mentions_stem", if containsStr "stem" all_text then 1 else 0),
     ("mentions_clean", (countStr "clean" all_text : ℚ)),
     ("mentions_safe", (countStr "safe" all_text : ℚ)),
     ("mentions_caring",
       ((countStr "caring" all_text + countStr "nurturing" all_text : ℕ) : ℚ)),
     ("mentions_educational",
       ((countStr "educational" all_text + countStr "learning" all_text : ℕ) : ℚ)),
     ("mentions_affordable",
       ((countStr "affordable" all_text + countStr "reasonable" all_text : ℕ) : ℚ)),
     ("mentions_expensive",
       ((countStr "expensive" all_text + countStr "pricey" all_text : ℕ) : ℚ)),
     ("positive_keywords_count",
       (((positiveKeywords.map (fun w => countStr w all_text)).sum : ℕ) : ℚ)),
     ("negative_keywords_count",
       (((negativeKeywords.map (fun w => countStr w all_text)).sum : ℕ) : ℚ)),
     ("avg_review_length", avgReviewLength reviews)]

/-- Degrees-to-radians conversion, Python `math.radians`. -/
noncomputable def radiansOf (x : ℝ) : ℝ := x * Real.pi / 180

/-- Embedding of `FeatureEngineer.calculate_distance`
(src/collect_data.py, lines 221-234): haversine distance in miles with
Earth radius 3959. -/
noncomputable def calculate_distance (lat1 lon1 lat2 lon2 : ℝ) : ℝ :=
  let R : ℝ := 3959
  let rlat1 := radiansOf lat1
  let rlon1 := radiansOf lon1
  let rlat2 := radiansOf lat2
  let rlon2 := radiansOf lon2
  let dlat := rlat2 - rlat1
  let dlon := rlon2 - rlon1
  let a := Real.sin (dlat / 2) ^ 2
    + Real.cos rlat1 * Real.cos rlat2 * Real.sin (dlon / 2) ^ 2
  let c := 2 * Real.arcsin (Real.sqrt a)
  R * c

/-- Embedding of the `distance_miles` column computation of
`FeatureEngineer.engineer_all_features` (src/collect_data.py, lines
279-285).  The source tests `pd.notna(row['latitude'])` only; when the
latitude is present but the longitude is `NaN`, the haversine formula is
evaluated on `NaN` and the result is `NaN`, modelled here by `none`. -/
noncomputable def distance_miles_feature (ulat ulon : ℝ)
    (lat lon : Option ℝ) : Option ℝ :=
  match lat with
  | none => some 999
  | some la =>
    match lon with
    | none => none
    | some lo => some (calculate_distance ulat ulon la lo)

/-- Embedding of `FeatureEngineer.estimate_price_from_reviews`
(src/collect_data.py, lines 236-270).  `rating` is the optional rating
field; Python `if rating:` is truthiness, i.e. the rating is present and
non-zero. -/
def estimate_price_from_reviews (reviews : List Review) (rating : Option ℚ) : ℚ :=
  if reviews.isEmpty then
    match rating with
    | none => 1200
    | some r => if r = 0 then 1200 else 1200 + (r - 3.5) * 200
  else
    let all_text := joinedLowerTexts reviews
    let affordable_count := countStr "affordable" all_text + countStr "reasonable" all_text
    let expensive_count := countStr "expensive" all_text + countStr "pricey" all_text
    let base_price : ℚ := 1200
    let estimated_price :=
      if expensive_count < affordable_count then base_price * 0.85
      else if affordable_count < expensive_count then base_price * 1.25
      else base_price
    match rating with
    | none => estimated_price
    | some r => if r = 0 then estimated_price else estimated_price + (r - 3.5) * 150

/-- Embedding of the `quality_score` column computation of
`FeatureEngineer.engineer_all_features` (src/collect_data.py, lines
300-305).  The keyword counts are natural numbers as produced by
`extract_review_features`. -/
def quality_score (rating : Option ℚ) (pos neg : ℕ) : ℚ :=
  (rating.getD 3 / 5) * 0.6
    + (((pos : ℚ) - (neg : ℚ)) / ((pos : ℚ) + (neg : ℚ) + 1)) * 0.4

end CollectData

/-- A provider row as seen by the two score functions: the engineered
numeric columns (each possibly `NaN`, modelled by `none`) together with
the `mentions_*` columns, modelled as a partial map from column name to
value. -/
structure ProviderRow where
  distance_miles : Option ℚ
  estimated_price : Option ℚ
  rating : Option ℚ
  mentions : String → Option ℚ

/-- A preference set: `max_distance`, `max_budget` and the list of
desired value keywords. -/
structure Preferences where
  max_distance : ℚ
  max_budget : ℚ
  values : List String

namespace CollectData

/-- Distance term of `SimpleRecommender.calculate_match_score`
(src/collect_data.py, lines 329-332): 35 points, only awarded within
`max_distance`. -/
def distanceTerm (d : Option ℚ) (md : ℚ) : ℚ :=
  match d with
  | none => 0
  | some dm => if dm ≤ md then 35 * (1 - dm / md) else 0

/-- Price term of `SimpleRecommender.calculate_match_score`
(src/collect_data.py, lines 334-340): 30 points within budget, and a
graduated penalty `max(0, 30 * (1 - (price - budget) / budget))` over
budget. -/
def priceTerm (p : Option ℚ) (mb : ℚ) : ℚ :=
  match p with
  | none => 0
  | some pr =>
    if pr ≤ mb then 30 * (1 - pr / mb)
    else max 0 (30 * (1 - (pr - mb) / mb))

/-- Rating term of `SimpleRecommender.calculate_match_score`
(src/collect_data.py, lines 342-344): `20 * (rating / 5.0)` when the
rating is present, otherwise nothing is added. -/
def ratingTerm (r : Option ℚ) : ℚ :=
  match r with
  | none => 0
  | some rt => 20 * (rt / 5)

/-- The per-value test of the values loop (src/collect_data.py, lines
348-351): `col_name in row and row[col_name] > 0`. -/
def mentionsPositive (row : ProviderRow) (v : String) : Bool :=
  match row.mentions ("mentions_" ++ v) with
  | none => false
  | some c => decide (0 < c)

/-- Values term of `SimpleRecommender.calculate_match_score`
(src/collect_data.py, lines 346-354): 15 points scaled by the fraction
of requested values that are mentioned; nothing when no values are
requested. -/
def valuesTerm (row : ProviderRow) (values : List String) : ℚ :=
  if values.isEmpty then 0
  else 15 * ((values.countP (mentionsPositive row) : ℚ) / (values.length : ℚ))

/-- Embedding of `SimpleRecommender.calculate_match_score`
(src/collect_data.py, lines 321-356): the sum of the four terms,
returned as `min(score, 100)`. -/
def calculate_match_score (row : ProviderRow) (prefs : Preferences) : ℚ :=
  min (distanceTerm row.distance_miles prefs.max_distance
       + priceTerm row.estimated_price prefs.max_budget
       + ratingTerm row.rating
       + valuesTerm row prefs.values) 100

/-- Embedding of `SimpleRecommender.recommend` (src/collect_data.py,
lines 358-378).  `df.nlargest(top_n, 'match_score')` with the default
`keep='first'` returns the rows in descending match-score order, ties
kept in dataset order: a stable descending sort followed by taking the
first `top_n` rows. -/
def recommend (rows : List ProviderRow) (prefs : Preferences) (top_n : ℕ) :
    List ProviderRow :=
  (List.insertionSort
    (fun a b => calculate_match_score b prefs ≤ calculate_match_score a prefs)
    rows).take top_n

end CollectData

namespace App

/-- Distance term of `calculate_match_score` (src/app.py, lines 31-34). -/
def distanceTerm (d : Option ℚ) (md : ℚ) : ℚ :=
  match d with
  | none => 0
  | some dm => if dm ≤ md then 35 * (1 - dm / md) else 0

/-- Price term of `calculate_match_score` (src/app.py, lines 36-39):
no points at all over budget. -/
def priceTerm (p : Option ℚ) (mb : ℚ) : ℚ :=
  match p with
  | none => 0
  | some pr => if pr ≤ mb then 30 * (1 - pr / mb) else 0

/-- Rating term of `calculate_match_score` (src/app.py, lines 41-43). -/
def ratingTerm (r : Option ℚ) : ℚ :=
  match r with
  | none => 0
  | some rt => 20 * (rt / 5)

/-- The per-value test of the values line (src/app.py, line 47):
`row.get(f'mentions_{v}', 0) > 0`. -/
def mentionsPositive (row : ProviderRow) (v : String) : Bool :=
  decide (0 < (row.mentions ("mentions_" ++ v)).getD 0)

/-- Values term of `calculate_match_score` (src/app.py, lines 45-48). -/
def valuesTerm (row : ProviderRow) (values : List String) : ℚ :=
  if values.isEmpty then 0
  else 15 * ((values.countP (mentionsPositive row) : ℚ) / (values.length : ℚ))

/-- Embedding of the viewer scoring function `calculate_match_score`
(src/app.py, lines 27-50). -/
def calculate_match_score (row : ProviderRow) (prefs : Preferences) : ℚ :=
  min (distanceTerm row.distance_miles prefs.max_distance
       + priceTerm row.estimated_price prefs.max_budget
       + ratingTerm row.rating
       + valuesTerm row prefs.values) 100

end App

/-- Affordability keyword count of the joined review text, as computed
inside `estimate_price_from_reviews`:
`all_text.count('affordable') + all_text.count('reasonable')`. -/
def affordabilityCount (reviews : List Review) : ℕ :=
  countStr "affordable" (joinedLowerTexts reviews)
    + countStr "reasonable" (joinedLowerTexts reviews)

/-- Cost-concern keyword count of the joined review text, as computed
inside `estimate_price_from_reviews`:
`all_text.count('expensive') + all_text.count('pricey')`. -/
def costConcernCount (reviews : List Review) : ℕ :=
  countStr "expensive" (joinedLowerTexts reviews)
    + countStr "pricey" (joinedLowerTexts reviews)

/-- Written from the amended claim C2: for a non-empty review list, the
base price 1200 is multiplied by 0.85 when the affordability count
exceeds the cost-concern count, by 1.25 in the opposite case and left
unchanged otherwise, and `(rating - 3.5) * 150` is added when the rating
is present and non-zero. -/
def claimedPrice (reviews : List Review) (rating : Option ℚ) : ℚ :=
  (if costConcernCount reviews < affordabilityCount reviews then 1200 * 0.85
   else if affordabilityCount reviews < costConcernCount reviews then 1200 * 1.25
   else 1200)
  + (match rating with
     | none => 0
     | some r => if r = 0 then 0 else (r - 3.5) * 150)

theorem distanceTerm_nonneg {d : Option ℚ} {md : ℚ} (h : 0 < md) :
    0 ≤ CollectData.distanceTerm d md := by
  cases d with
  | none => simp [CollectData.distanceTerm]
  | some dm =>
    simp only [CollectData.distanceTerm]
    split_ifs with hle
    · have hdiv : dm / md ≤ 1 := (div_le_one h).mpr hle
      nlinarith
    · exact le_refl 0

theorem priceTerm_collect_nonneg {p : Option ℚ} {mb : ℚ} (h : 0 < mb) :
    0 ≤ CollectData.priceTerm p mb := by
  cases p with
  | none => simp [CollectData.priceTerm]
  | some pr =>
    simp only [CollectData.priceTerm]
    split_ifs with hle
    · have hdiv : pr / mb ≤ 1 := (div_le_one h).mpr hle
      nlinarith
    · exact le_max_left 0 _

theorem priceTerm_app_nonneg {p : Option ℚ} {mb : ℚ} (h : 0 < mb) :
    0 ≤ App.priceTerm p mb := by
  cases p with
  | none => simp [App.priceTerm]
  | some pr =>
    simp only [App.priceTerm]
    split_ifs with hle
    · have hdiv : pr / mb ≤ 1 := (div_le_one h).mpr hle
      nlinarith
    · exact le_refl 0

theorem ratingTerm_nonneg {r : Option ℚ} (h : 0 ≤ r.getD 0) :
    0 ≤ CollectData.ratingTerm r := by
  cases r with
  | none => simp [CollectData.ratingTerm]
  | some rt =>
    simp only [Option.getD_some] at h
    simp only [CollectData.ratingTerm]
    positivity

theorem valuesTerm_collect_nonneg (row : ProviderRow) (values : List String) :
    0 ≤ CollectData.valuesTerm row values := by
  unfold CollectData.valuesTerm
  split_ifs
  · exact le_refl 0
  · have hnum : (0 : ℚ) ≤ (values.countP (CollectData.mentionsPositive row) : ℚ) :=
      Nat.cast_nonneg _
    have hden : (0 : ℚ) ≤ (values.length : ℚ) := Nat.cast_nonneg _
    have := div_nonneg hnum hden
    nlinarith

theorem app_distanceTerm_eq (d : Option ℚ) (md : ℚ) :
    App.distanceTerm d md = CollectData.distanceTerm d md := by
  cases d <;> rfl

theorem app_ratingTerm_eq (r : Option ℚ) :
    App.ratingTerm r = CollectData.ratingTerm r := by
  cases r <;> rfl

theorem app_mentionsPositive_eq (row : ProviderRow) (v : String) :
    App.mentionsPositive row v = CollectData.mentionsPositive row v := by
  unfold App.mentionsPositive CollectData.mentionsPositive
  cases h : row.mentions ("mentions_" ++ v) <;> simp [h]

theorem app_valuesTerm_eq (row : ProviderRow) (values : List String) :
    App.valuesTerm row values = CollectData.valuesTerm row values := by
  unfold App.valuesTerm CollectData.valuesTerm
  have hc : values.countP (App.mentionsPositive row)
      = values.countP (CollectData.mentionsPositive row) :=
    List.countP_congr (fun v _ => by rw [app_mentionsPositive_eq])
  rw [hc]

theorem valuesTerm_app_nonneg (row : ProviderRow) (values : List String) :
    0 ≤ App.valuesTerm row values := by
  rw [app_valuesTerm_eq]
  exact valuesTerm_collect_nonneg row values

/-- C1 (amended): both score implementations always return at most 100,
for every row and preference set without exception; and whenever
`max_distance` and `max_budget` are positive (as the viewer sliders
guarantee) and the rating, when present, is non-negative, both scores
also lie above 0, hence in the closed interval [0, 100], for arbitrary
distance, price and mention values.  The claim as frozen fails for a
negative rating, see the counterexample. -/
theorem C1_score_bounds_amended (row : ProviderRow) (prefs : Preferences) :
    (CollectData.calculate_match_score row prefs ≤ 100
      ∧ App.calculate_match_score row prefs ≤ 100)
    ∧ (0 < prefs.max_distance → 0 < prefs.max_budget →
        0 ≤ row.rating.getD 0 →
        (0 ≤ CollectData.calculate_match_score row prefs
          ∧ 0 ≤ App.calculate_match_score row prefs)) := by
  constructor
  · exact ⟨min_le_right _ _, min_le_right _ _⟩
  · intro hmd hmb hr
    constructor
    · apply le_min _ (by norm_num)
      have h1 := distanceTerm_nonneg (d := row.distance_miles) hmd
      have h2 := priceTerm_collect_nonneg (p := row.estimated_price) hmb
      have h3 := ratingTerm_nonneg (r := row.rating) hr
      have h4 := valuesTerm_collect_nonneg row prefs.values
      linarith
    · apply le_min _ (by norm_num)
      have h1 := distanceTerm_nonneg (d := row.distance_miles) hmd
      have h2 := priceTerm_app_nonneg (p := row.estimated_price) hmb
      have h3 := ratingTerm_nonneg (r := row.rating) hr
      have h4 := valuesTerm_app_nonneg row prefs.values
      rw [app_distanceTerm_eq, app_ratingTerm_eq, app_valuesTerm_eq] at *
      linarith

/-- C1 counterexample: with the sample preferences and a row whose only
present field is a rating of -5, the collection-script score is -20,
which lies outside [0, 100]; the score is not clamped from below. -/
theorem C1_counterexample :
    CollectData.calculate_match_score
        ⟨none, none, some (-5), fun _ => none⟩ ⟨10, 1500, []⟩ = -20
    ∧ ¬ (0 ≤ CollectData.calculate_match_score
        ⟨none, none, some (-5), fun _ => none⟩ ⟨10, 1500, []⟩) := by
  have h : CollectData.calculate_match_score
      ⟨none, none, some (-5), fun _ => none⟩ ⟨10, 1500, []⟩ = -20 := by
    simp only [CollectData.calculate_match_score, CollectData.distanceTerm,
      CollectData.priceTerm, CollectData.ratingTerm, CollectData.valuesTerm,
      List.isEmpty, min_def]
    norm_num
  exact ⟨h, by rw [h]; norm_num⟩

/-- Witness for C1: the amended bound applied to the concrete example
row of claim C6, the positivity hypotheses of the lower bound
discharged there. -/
theorem C1_score_bounds_amended_witness :
    (CollectData.calculate_match_score
        ⟨some 5, some 750, some 5, fun _ => none⟩ ⟨10, 1500, []⟩ ≤ 100
      ∧ App.calculate_match_score
        ⟨some 5, some 750, some 5, fun _ => none⟩ ⟨10, 1500, []⟩ ≤ 100)
    ∧ (0 ≤ CollectData.calculate_match_score
        ⟨some 5, some 750, some 5, fun _ => none⟩ ⟨10, 1500, []⟩
      ∧ 0 ≤ App.calculate_match_score
        ⟨some 5, some 750, some 5, fun _ => none⟩ ⟨10, 1500, []⟩) :=
  ⟨(C1_score_bounds_amended ⟨some 5, some 750, some 5, fun _ => none⟩
      ⟨10, 1500, []⟩).1,
   (C1_score_bounds_amended ⟨some 5, some 750, some 5, fun _ => none⟩
      ⟨10, 1500, []⟩).2 (by norm_num) (by norm_num) (by simp)⟩

/-- C2 (amended): for a non-empty review list the estimated price is
the base price 1200 multiplied by 0.85 when the affordability count
exceeds the cost-concern count, by 1.25 in the opposite case and left
unchanged otherwise, plus `(rating - 3.5) * 150` when the rating is
present AND non-zero (Python truthiness `if rating:`); an empty review
list returns exactly 1200 both for rating 3.5 and for an absent
rating. -/
theorem C2_estimate_price_amended (reviews : List Review) (rating : Option ℚ) :
    (reviews ≠ [] →
      CollectData.estimate_price_from_reviews reviews rating
        = claimedPrice reviews rating)
    ∧ CollectData.estimate_price_from_reviews [] (some 3.5) = 1200
    ∧ CollectData.estimate_price_from_reviews [] none = 1200 := by
  refine ⟨?_, by norm_num [CollectData.estimate_price_from_reviews], rfl⟩
  intro hne
  have hE : reviews.isEmpty = false := by
    cases reviews with
    | nil => exact absurd rfl hne
    | cons a l => rfl
  unfold CollectData.estimate_price_from_reviews claimedPrice
    affordabilityCount costConcernCount
  simp only [hE, Bool.false_eq_true, if_false]
  cases rating with
  | none =>
    dsimp only
    split_ifs <;> ring
  | some r =>
    dsimp only
    split_ifs <;> ring

/-- C2 counterexample: with one keyword-free review and rating exactly
0, the code returns the unadjusted base price 1200, while the claim as
frozen (rating present, hence add `(0 - 3.5) * 150`) predicts 675. -/
theorem C2_counterexample :
    CollectData.estimate_price_from_reviews [⟨"x"⟩] (some 0) = 1200
    ∧ (1200 : ℚ) ≠ 1200 + ((0 : ℚ) - 3.5) * 150 := by
  constructor
  · decide
  · norm_num

/-- Witness for C2: the amended price formula applied to one
keyword-free review with rating 4 yields 1200 + 0.5 * 150 = 1275. -/
theorem C2_estimate_price_amended_witness :
    CollectData.estimate_price_from_reviews [⟨"x"⟩] (some 4) = 1275 := by
  have h := (C2_estimate_price_amended [⟨"x"⟩] (some 4)).1 (by simp)
  rw [h]
  have ha : affordabilityCount [⟨"x"⟩] = 0 := by decide
  have he : costConcernCount [⟨"x"⟩] = 0 := by decide
  simp only [claimedPrice, ha, he, lt_irrefl, if_false]
  norm_num

/-- C3 (amended): for every provider row whose LATITUDE is absent, the
engineered `distance_miles` equals the sentinel 999, and such a
provider fails every filter requiring `distance_miles ≤ max_distance`
for any `max_distance` below 999.  The claim as frozen also covers a
missing longitude with present latitude, but there the code computes
the haversine formula on NaN, not the sentinel, see the
counterexample. -/
theorem C3_missing_latitude_sentinel (ulat ulon : ℝ) (lon : Option ℝ)
    (md : ℝ) (hmd : md < 999) :
    CollectData.distance_miles_feature ulat ulon none lon = some 999
    ∧ ¬ ((999 : ℝ) ≤ md) :=
  ⟨rfl, not_le.mpr hmd⟩

/-- C3 counterexample: latitude present, longitude missing.  The source
only tests `pd.notna(row['latitude'])`, so the haversine formula is
evaluated on a NaN longitude and the feature is NaN (modelled `none`),
not the sentinel 999. -/
theorem C3_counterexample :
    CollectData.distance_miles_feature 42.5 (-70.8) (some 42.6) none ≠ some 999 := by
  simp [CollectData.distance_miles_feature]

/-- Witness for C3: the sentinel and filter facts at the concrete
reference coordinate and max_distance 10. -/
theorem C3_missing_latitude_sentinel_witness :
    CollectData.distance_miles_feature 42.5 (-70.8) none (some 1) = some 999
    ∧ ¬ ((999 : ℝ) ≤ 10) :=
  C3_missing_latitude_sentinel 42.5 (-70.8) (some 1) 10 (by norm_num)

/-- C5 (amended): provided `max_budget` is positive, the two score
implementations agree whenever the price is missing, within budget, or
at least twice the budget; and there is a row with
`max_budget < price < 2 * max_budget` on which they differ.  Without
the positivity assumption the claim as frozen fails, see the
counterexample. -/
theorem C5_price_policy_amended (row : ProviderRow) (prefs : Preferences)
    (hmb : 0 < prefs.max_budget)
    (hcase : row.estimated_price = none
      ∨ ∃ p, row.estimated_price = some p
          ∧ (p ≤ prefs.max_budget ∨ 2 * prefs.max_budget ≤ p)) :
    CollectData.calculate_match_score row prefs = App.calculate_match_score row prefs
    ∧ ∃ (row2 : ProviderRow) (prefs2 : Preferences) (p : ℚ),
        row2.estimated_price = some p
        ∧ prefs2.max_budget < p ∧ p < 2 * prefs2.max_budget
        ∧ CollectData.calculate_match_score row2 prefs2
            ≠ App.calculate_match_score row2 prefs2 := by
  constructor
  · have hprice : CollectData.priceTerm row.estimated_price prefs.max_budget
        = App.priceTerm row.estimated_price prefs.max_budget := by
      rcases hcase with hnone | ⟨p, hp, hcases⟩
      · rw [hnone]; rfl
      · rw [hp]
        simp only [CollectData.priceTerm, App.priceTerm]
        rcases hcases with hle | hge
        · rw [if_pos hle, if_pos hle]
        · have hgt : ¬ p ≤ prefs.max_budget := not_le.mpr (by linarith)
          rw [if_neg hgt, if_neg hgt]
          apply max_eq_left
          have h1 : 1 ≤ (p - prefs.max_budget) / prefs.max_budget :=
            (one_le_div hmb).mpr (by linarith)
          linarith
    unfold CollectData.calculate_match_score App.calculate_match_score
    rw [hprice, app_distanceTerm_eq, app_ratingTerm_eq, app_valuesTerm_eq]
  · refine ⟨⟨none, some 2250, none, fun _ => none⟩, ⟨10, 1500, []⟩, 2250,
      rfl, by norm_num, by norm_num, ?_⟩
    simp only [CollectData.calculate_match_score, App.calculate_match_score,
      CollectData.distanceTerm, App.distanceTerm, CollectData.priceTerm,
      App.priceTerm, CollectData.ratingTerm, App.ratingTerm,
      CollectData.valuesTerm, App.valuesTerm, List.isEmpty, min_def, max_def]
    norm_num

/-- C5 counterexample: with a negative budget of -10 and price 5 (which
satisfies price at least twice the budget), the collection-script
score is 75 while the viewer score is 0, so the claimed agreement fails
for arbitrary preference sets. -/
theorem C5_counterexample :
    (2 * (-10 : ℚ) ≤ 5)
    ∧ CollectData.calculate_match_score
        ⟨none, some 5, none, fun _ => none⟩ ⟨10, -10, []⟩
      ≠ App.calculate_match_score
        ⟨none, some 5, none, fun _ => none⟩ ⟨10, -10, []⟩ := by
  constructor
  · norm_num
  · simp only [CollectData.calculate_match_score, App.calculate_match_score,
      CollectData.distanceTerm, App.distanceTerm, CollectData.priceTerm,
      App.priceTerm, CollectData.ratingTerm, App.ratingTerm,
      CollectData.valuesTerm, App.valuesTerm, List.isEmpty, min_def, max_def]
    norm_num

/-- Witness for C5: the two implementations agree at a concrete
within-budget row. -/
theorem C5_price_policy_amended_witness :
    CollectData.calculate_match_score
        ⟨none, some 100, none, fun _ => none⟩ ⟨10, 1500, []⟩
      = App.calculate_match_score
        ⟨none, some 100, none, fun _ => none⟩ ⟨10, 1500, []⟩ :=
  (C5_price_policy_amended ⟨none, some 100, none, fun _ => none⟩ ⟨10, 1500, []⟩
    (by norm_num) (Or.inr ⟨100, rfl, Or.inl (by norm_num)⟩)).1

theorem filter_orderedInsert_key {α : Type*} (f : α → ℚ) (s : ℚ) (a : α) (l : List α) :
    (List.orderedInsert (fun x y => f y ≤ f x) a l).filter (fun x => decide (f x = s))
      = if f a = s then a :: l.filter (fun x => decide (f x = s))
        else l.filter (fun x => decide (f x = s)) := by
  induction l with
  | nil =>
    by_cases has : f a = s <;> simp [List.orderedInsert, List.filter, has]
  | cons b t ih =>
    simp only [List.orderedInsert]
    by_cases hba : f b ≤ f a
    · rw [if_pos hba]
      by_cases has : f a = s <;> by_cases hbs : f b = s <;>
        simp [List.filter_cons, has, hbs]
    · rw [if_neg hba]
      by_cases has : f a = s
      · have hbs : ¬ f b = s := fun hb => hba (le_of_eq (hb.trans has.symm))
        simp [List.filter_cons, hbs, ih, has]
      · by_cases hbs : f b = s <;> simp [List.filter_cons, hbs, ih, has]

theorem filter_insertionSort_key {α : Type*} (f : α → ℚ) (s : ℚ) (l : List α) :
    (List.insertionSort (fun x y => f y ≤ f x) l).filter (fun x => decide (f x = s))
      = l.filter (fun x => decide (f x = s)) := by
  induction l with
  | nil => rfl
  | cons a t ih =>
    simp only [List.insertionSort]
    rw [filter_orderedInsert_key f s a]
    by_cases has : f a = s <;> simp [List.filter_cons, has, ih]

theorem filter_take_isPre {α : Type*} (p : α → Bool) (n : ℕ) (l : List α) :
    (l.take n).filter p <+: l.filter p :=
  ⟨(l.drop n).filter p, by rw [← List.filter_append, List.take_append_drop]⟩

/-- C8: for every dataset and preference set, `recommend` returns at
most `top_n` rows, the result is sorted by descending match score (so
no lower-scored row is ranked above a higher-scored one), and the
selection is stable: for every score value, the returned rows with that
score form an initial segment, in order, of the dataset rows with that
score. -/
theorem C8_recommend_topN (rows : List ProviderRow) (prefs : Preferences) (top_n : ℕ) :
    (CollectData.recommend rows prefs top_n).length ≤ top_n
    ∧ List.Sorted
        (fun a b => CollectData.calculate_match_score b prefs
          ≤ CollectData.calculate_match_score a prefs)
        (CollectData.recommend rows prefs top_n)
    ∧ ∀ s : ℚ,
        (CollectData.recommend rows prefs top_n).filter
            (fun row => decide (CollectData.calculate_match_score row prefs = s))
          <+: rows.filter
            (fun row => decide (CollectData.calculate_match_score row prefs = s)) := by
  refine ⟨?_, ?_, ?_⟩
  · unfold CollectData.recommend
    rw [List.length_take]
    exact min_le_left _ _
  · unfold CollectData.recommend
    have hs : List.Sorted
        (fun a b => CollectData.calculate_match_score b prefs
          ≤ CollectData.calculate_match_score a prefs)
        (List.insertionSort
          (fun a b => CollectData.calculate_match_score b prefs
            ≤ CollectData.calculate_match_score a prefs) rows) := by
      letI : IsTotal ProviderRow
          (fun a b => CollectData.calculate_match_score b prefs
            ≤ CollectData.calculate_match_score a prefs) :=
        ⟨fun a b => le_total _ _⟩
      letI : IsTrans ProviderRow
          (fun a b => CollectData.calculate_match_score b prefs
            ≤ CollectData.calculate_match_score a prefs) :=
        ⟨fun _ _ _ hab hbc => le_trans hbc hab⟩
      exact List.sorted_insertionSort _ rows
    exact List.Pairwise.sublist (List.take_sublist _ _) hs
  · intro s
    unfold CollectData.recommend
    have h1 := filter_take_isPre
      (fun row => decide (CollectData.calculate_match_score row prefs = s)) top_n
      (List.insertionSort
        (fun a b => CollectData.calculate_match_score b prefs
          ≤ CollectData.calculate_match_score a prefs) rows)
    rwa [filter_insertionSort_key
      (fun row => CollectData.calculate_match_score row prefs) s rows] at h1

/-- C4 (code behaviour): for the empty review list every key that the
returned record contains maps to zero and `avg_review_length` is 0, but
the keys `mentions_reggio` and `mentions_stem` are missing from the
record entirely (downstream they become NaN columns), while the
non-empty branch does produce them; the claim says they are zero. -/
theorem C4_empty_reviews_features :
    ((CollectData.extract_review_features []).lookup "mentions_clean" = some 0
    ∧ (CollectData.extract_review_features []).lookup "mentions_safe" = some 0
    ∧ (CollectData.extract_review_features []).lookup "mentions_caring" = some 0
    ∧ (CollectData.extract_review_features []).lookup "mentions_educational" = some 0
    ∧ (CollectData.extract_review_features []).lookup "mentions_montessori" = some 0
    ∧ (CollectData.extract_review_features []).lookup "mentions_play_based" = some 0
    ∧ (CollectData.extract_review_features []).lookup "mentions_affordable" = some 0
    ∧ (CollectData.extract_review_features []).lookup "mentions_expensive" = some 0
    ∧ (CollectData.extract_review_features []).lookup "positive_keywords_count" = some 0
    ∧ (CollectData.extract_review_features []).lookup "negative_keywords_count" = some 0
    ∧ (CollectData.extract_review_features []).lookup "avg_review_length" = some 0)
    ∧ ((CollectData.extract_review_features []).lookup "mentions_reggio" = none
    ∧ (CollectData.extract_review_features []).lookup "mentions_stem" = none)
    ∧ ((CollectData.extract_review_features [⟨"a"⟩]).lookup "mentions_reggio" = some 0
    ∧ (CollectData.extract_review_features [⟨"a"⟩]).lookup "mentions_stem" = some 0) := by
  decide

/-- C10: `calculate_distance(lat, lon, lat, lon) = 0` for every
coordinate pair; the haversine distance from a point to itself is
zero. -/
theorem C10_distance_self_eq_zero (lat lon : ℝ) :
    CollectData.calculate_distance lat lon lat lon = 0 := by
  unfold CollectData.calculate_distance
  norm_num

/-- C7: in both score implementations, the rating term is exactly 0
when the rating is absent (no error is raised, the term is total), and
equals `20 * (rating / 5)` when the rating is present. -/
theorem C7_rating_term (r : ℚ) :
    (CollectData.ratingTerm none = 0 ∧ App.ratingTerm none = 0)
    ∧ (CollectData.ratingTerm (some r) = 20 * (r / 5)
       ∧ App.ratingTerm (some r) = 20 * (r / 5)) :=
  ⟨⟨rfl, rfl⟩, rfl, rfl⟩

/-- C9: `quality_score` equals
`0.6 * (rating_or_default(3) / 5) + 0.4 * ((pos - neg) / (pos + neg + 1))`,
its divisor `pos + neg + 1` is strictly positive for the natural-number
keyword counts, and the result is not clamped: a concrete input yields a
negative score. -/
theorem C9_quality_score (rating : Option ℚ) (pos neg : ℕ) :
    CollectData.quality_score rating pos neg
      = 0.6 * (rating.getD 3 / 5)
        + 0.4 * (((pos : ℚ) - (neg : ℚ)) / ((pos : ℚ) + (neg : ℚ) + 1))
    ∧ (0 : ℚ) < (pos : ℚ) + (neg : ℚ) + 1
    ∧ CollectData.quality_score (some 0) 0 5 < 0 := by
  refine ⟨by unfold CollectData.quality_score; ring, by positivity, ?_⟩
  norm_num [CollectData.quality_score]

/-- C6: with preferences `max_distance = 10`, `max_budget = 1500` and no
requested values, a provider at distance 5, price 750 and rating 5.0
scores exactly 52.5 (= 105/2) in both implementations. -/
theorem C6_example_score :
    CollectData.calculate_match_score
        ⟨some 5, some 750, some 5, fun _ => none⟩ ⟨10, 1500, []⟩ = 105 / 2
    ∧ App.calculate_match_score
        ⟨some 5, some 750, some 5, fun _ => none⟩ ⟨10, 1500, []⟩ = 105 / 2 := by
  constructor <;>
  · simp only [CollectData.calculate_match_score, CollectData.distanceTerm,
      CollectData.priceTerm, CollectData.ratingTerm, CollectData.valuesTerm,
      App.calculate_match_score, App.distanceTerm, App.priceTerm,
      App.ratingTerm, App.valuesTerm, List.isEmpty, min_def]
    norm_num

end ChildcareFinder
